import Mathlib

/-!
Shallow embedding of the DDoS-anti-System Go sources.

Conventions used throughout:
* instants (Go `time.Time`) are integers counting nanoseconds since the
  Unix epoch; durations (`time.Duration`) are integer nanosecond counts;
  `Time.Unix()` is floor division by `10^9` (Lean's `Int` `/`);
* Go maps become association lists or total functions with the Go zero
  value on missing keys, matching Go map-indexing semantics;
* `float64` scores are modelled with exact rationals `ℚ`;
* Redis is modelled by an explicit state plus an `up` flag: an operation
  against a store with `up = false` behaves like the erroring Go call;
* compiled regular expressions (Go `regexp.Regexp`, an external library)
  are modelled as opaque-to-the-structure but concrete `String → Bool`
  match functions stored in the same fields the Go structs keep the
  compiled patterns in.
-/

set_option maxRecDepth 4000

/-- Nanoseconds per second, the conversion factor behind Go `time.Time.Unix()`. -/
def nsPerSec : ℤ := 1000000000

/-- Go `t.Unix()`: whole seconds since the epoch (floor division, which is what
Lean's `Int` division performs for a positive divisor). -/
def unixSec (t : ℤ) : ℤ := t / nsPerSec

/-- Whether the character list `sub` occurs contiguously inside `s`
(Go `strings.Contains` on the underlying bytes, here on characters). -/
def charsContain (s sub : List Char) : Bool :=
  match s with
  | [] => sub.isEmpty
  | _ :: tl => sub.isPrefixOf s || charsContain tl sub

/-- Go `strings.Contains(s, sub)`. -/
def goContains (s sub : String) : Bool :=
  charsContain s.toList sub.toList

/-- Go `strings.TrimSpace`: drop leading and trailing whitespace. -/
def trimSpace (s : String) : String :=
  String.mk (((s.toList.dropWhile Char.isWhitespace).reverse.dropWhile
    Char.isWhitespace).reverse)

/-- Split a character list at every occurrence of the separator character. -/
def splitChar (c : Char) : List Char → List (List Char)
  | [] => [[]]
  | x :: xs =>
    let r := splitChar c xs
    if x == c then [] :: r
    else
      match r with
      | h :: t => (x :: h) :: t
      | [] => [[x]]

/-- Go `strings.Split(s, sep)` for the single-character separators the sources
use (",", ":", "."): always returns at least one piece. -/
def goSplit (s : String) (c : Char) : List String :=
  (splitChar c s.toList).map String.mk

/-- Go `strings.ToLower` restricted to the ASCII folding the sources rely on. -/
def goToLower (s : String) : String := String.mk (s.toList.map Char.toLower)

/-- Go `strings.EqualFold` restricted to the ASCII folding the sources rely on. -/
def equalFold (a b : String) : Bool := goToLower a == goToLower b

/-- An HTTP header block: the `http.Header` map, as a list of
(key, values) pairs.  Go's `net/http` stores parsed request headers under
canonical MIME keys such as `Host` or `Content-Type`. -/
def Headers : Type := List (String × List String)

/-- Go map indexing `headers[key]`: case-sensitive lookup, `nil` (here `[]`)
when the key is absent. -/
def hIndex (hs : Headers) (key : String) : List String :=
  match hs.find? (fun p => p.1 == key) with
  | some p => p.2
  | none => []

/-- `textproto.CanonicalMIMEHeaderKey`: first letter and every letter following
a hyphen upper-cased, all other letters lower-cased. -/
def canonicalKey (s : String) : String :=
  let rec go (start : Bool) : List Char → List Char
    | [] => []
    | c :: cs =>
      let c' := if start then c.toUpper else c.toLower
      c' :: go (c == '-' || c' == '-') cs
  String.mk (go true s.toList)

/-- `http.Header.Get(key)`: canonicalise the key, return the first value or "". -/
def hGet (hs : Headers) (key : String) : String :=
  match hIndex hs (canonicalKey key) with
  | [] => ""
  | v :: _ => v

/-- An inbound HTTP request, with the metadata the protection pipeline reads. -/
structure Request where
  method : String
  path : String
  rawQuery : String
  contentLength : ℤ
  headers : Headers
  remoteAddr : String

/-- Go `req.UserAgent()`, i.e. `Header.Get("User-Agent")`. -/
def Request.userAgent (r : Request) : String := hGet r.headers "User-Agent"

namespace ratelimit

/-- One `RedisLimiter.Allow` call.  The remote sorted set for the key holds
one member per recorded request — the member is `now.UnixNano()` and its score
is `now.Unix()` (so the score of a member `m` is `unixSec m`).  Mirroring the
Go pipeline: `ZREMRANGEBYSCORE` drops members with score in
`[0, (now-window).Unix()]`, `ZCARD` counts the remainder, `ZADD` inserts the
current member (a no-op when it is already present), and the call admits iff
the count is strictly below the limit.  `execOk` models whether `pipe.Exec`
succeeds; on a Redis error the Go code returns `true` (fail open) without
consulting the count. -/
def redisAllowStep (execOk : Bool) (limit : ℕ) (window : ℤ)
    (state : List ℤ) (now : ℤ) : Bool × List ℤ :=
  if execOk then
    let cutoff := unixSec (now - window)
    let kept := state.filter
      (fun m => decide (unixSec m < 0) || decide (cutoff < unixSec m))
    let state' := if kept.contains now then kept else kept ++ [now]
    (decide (kept.length < limit), state')
  else
    (true, state)

/-- Run a sequence of `Allow` calls for one key against a healthy store,
returning the per-call results (true = admitted) and the final stored set. -/
def redisRun (limit : ℕ) (window : ℤ) (state : List ℤ) :
    List ℤ → List Bool × List ℤ
  | [] => ([], state)
  | t :: ts =>
    let s := redisAllowStep true limit window state t
    let r := redisRun limit window s.2 ts
    (s.1 :: r.1, r.2)

/-- How many `Allow` calls of the run over `ts` (from an empty store) are
admitted with a receipt instant inside `[a, b]`. -/
def trueCountIn (limit : ℕ) (window : ℤ) (ts : List ℤ) (a b : ℤ) : ℕ :=
  ((ts.zip (redisRun limit window [] ts).1).countP
    (fun p => decide (a ≤ p.1) && decide (p.1 ≤ b) && p.2))

/-- Call at `u` still counted at the later call at `t`: the stored score of
`u` survives the removal `ZREMRANGEBYSCORE 0 (t-window).Unix()`. -/
def pairInWindow (window u t : ℤ) : Prop :=
  (decide (unixSec u < 0) || decide (unixSec (t - window) < unixSec u)) = true

instance (window u t : ℤ) : Decidable (pairInWindow window u t) := by
  unfold pairInWindow
  infer_instance

end ratelimit

/-- Errors surfaced by the IP manager; `conflictWhitelisted` is the
"cannot blacklist whitelisted IP" failure, `storeUnavailable` a failed
Redis write. -/
inductive IPError where
  | conflictWhitelisted
  | storeUnavailable
deriving DecidableEq, Repr

/-- The remote key-value store: whether calls succeed, and which keys exist. -/
structure RedisModel where
  up : Bool
  present : String → Bool

/-- Set a key in the remote store (a successful `SET`). -/
def RedisModel.setKey (rm : RedisModel) (k : String) : RedisModel :=
  { rm with present := fun k' => if k' == k then true else rm.present k' }

/-- Delete a key in the remote store. -/
def RedisModel.delKey (rm : RedisModel) (k : String) : RedisModel :=
  { rm with present := fun k' => if k' == k then false else rm.present k' }

namespace blacklist

/-- The `IPManager` mutable state: the local blacklist cache mapping an IP to
its absolute expiry instant, the local whitelist set, the auto-blacklist
switch and threshold, and the optional Redis client (`none` = nil client). -/
structure IPManager where
  blacklistedIPs : String → Option ℤ
  whitelistedIPs : String → Bool
  client : Option RedisModel
  autoBlacklist : Bool
  threshold : ℤ

/-- `IPManager.IsWhitelisted`: local set first, then Redis `EXISTS` on
`whitelist:<ip>` (false when the call errors or the client is nil). -/
def IPManager.IsWhitelisted (im : IPManager) (ip : String) : Bool :=
  if im.whitelistedIPs ip then true
  else
    match im.client with
    | some rm => rm.up && rm.present ("whitelist:" ++ ip)
    | none => false

/-- `IPManager.IsBlacklisted`: whitelist overrides; then the local cache
(an unexpired entry answers true, an expired one is evicted and the code
falls through); then Redis `EXISTS` on `blacklist:<ip>` (false on error or
nil client).  The embedding returns the decision; the lazy eviction of the
expired local entry does not change any lookup's answer. -/
def IPManager.IsBlacklisted (im : IPManager) (now : ℤ) (ip : String) : Bool :=
  if im.IsWhitelisted ip then false
  else
    let redisHit :=
      match im.client with
      | some rm => rm.up && rm.present ("blacklist:" ++ ip)
      | none => false
    match im.blacklistedIPs ip with
    | some expiry => if now < expiry then true else redisHit
    | none => redisHit

/-- `IPManager.BlacklistIP`: refuse whitelisted IPs before any mutation;
otherwise record the local expiry `now + duration` and mirror to Redis,
surfacing the Redis write failure (the local entry stays either way). -/
def IPManager.BlacklistIP (im : IPManager) (now : ℤ) (ip : String)
    (duration : ℤ) : IPManager × Option IPError :=
  if im.whitelistedIPs ip then (im, some .conflictWhitelisted)
  else
    let expiry := now + duration
    let im' := { im with
      blacklistedIPs := fun k => if k == ip then some expiry else im.blacklistedIPs k }
    match im'.client with
    | some rm =>
      if rm.up then
        ({ im' with client := some (rm.setKey ("blacklist:" ++ ip)) }, none)
      else (im', some .storeUnavailable)
    | none => (im', none)

/-- `IPManager.WhitelistIP`: add to the local set, mirror to Redis (no expiry),
surfacing a Redis write failure after the local write. -/
def IPManager.WhitelistIP (im : IPManager) (ip : String) :
    IPManager × Option IPError :=
  let im' := { im with
    whitelistedIPs := fun k => if k == ip then true else im.whitelistedIPs k }
  match im'.client with
  | some rm =>
    if rm.up then
      ({ im' with client := some (rm.setKey ("whitelist:" ++ ip)) }, none)
    else (im', some .storeUnavailable)
  | none => (im', none)

/-- `IPManager.RemoveFromBlacklist`: drop the local entry, mirror the delete
to Redis, surfacing a failed remote delete. -/
def IPManager.RemoveFromBlacklist (im : IPManager) (ip : String) :
    IPManager × Option IPError :=
  let im' := { im with
    blacklistedIPs := fun k => if k == ip then none else im.blacklistedIPs k }
  match im'.client with
  | some rm =>
    if rm.up then
      ({ im' with client := some (rm.delKey ("blacklist:" ++ ip)) }, none)
    else (im', some .storeUnavailable)
  | none => (im', none)

/-- `IPManager.RemoveFromWhitelist`: drop the local entry, mirror the delete
to Redis, surfacing a failed remote delete. -/
def IPManager.RemoveFromWhitelist (im : IPManager) (ip : String) :
    IPManager × Option IPError :=
  let im' := { im with
    whitelistedIPs := fun k => if k == ip then false else im.whitelistedIPs k }
  match im'.client with
  | some rm =>
    if rm.up then
      ({ im' with client := some (rm.delKey ("whitelist:" ++ ip)) }, none)
    else (im', some .storeUnavailable)
  | none => (im', none)

/-- `IPManager.ShouldAutoBlacklist`: feature enabled, not whitelisted, and the
observed request count strictly above the threshold. -/
def IPManager.ShouldAutoBlacklist (im : IPManager) (ip : String)
    (requestCount : ℤ) : Bool :=
  if !im.autoBlacklist then false
  else if im.IsWhitelisted ip then false
  else decide (im.threshold < requestCount)

end blacklist

namespace filter

/-- The result record `FilterResult`. -/
structure FilterResult where
  Allowed : Bool
  Reason : String
  RiskScore : ℤ
  Blocked : Bool
  ShouldLog : Bool
deriving DecidableEq, Repr

/-- The `RequestFilter` state: size bound, the configured suspicious-header
names, the compiled blocked-user-agent and malicious-pattern matchers, and the
per-IP request-time history (Go map; missing key reads as the empty slice).
The history window is 5 minutes and the per-window bound is 100, as set by
`NewRequestFilter`. -/
structure RequestFilter where
  maxRequestSize : ℤ
  suspiciousHeaders : List String
  blockedUserAgentRe : List (String → Bool)
  maliciousPatterns : List (String → Bool)
  requestHistory : String → List ℤ

/-- `historyWindow`: 5 minutes, in nanoseconds. -/
def historyWindow : ℤ := 300 * nsPerSec

/-- `maxRequestsPerWindow`: 100. -/
def maxRequestsPerWindow : ℕ := 100

/-- `RequestFilter.isBlockedUserAgent`. -/
def RequestFilter.isBlockedUserAgent (rf : RequestFilter) (ua : String) : Bool :=
  rf.blockedUserAgentRe.any (fun re => re ua)

/-- `RequestFilter.hasMaliciousPattern`. -/
def RequestFilter.hasMaliciousPattern (rf : RequestFilter) (text : String) : Bool :=
  rf.maliciousPatterns.any (fun pat => pat text)

/-- `RequestFilter.hasHeaderManipulation`: more than one value stored under the
literal keys "host", "content-type" or "content-length" (Go map indexing is
case-sensitive, so this looks for exactly these lower-case keys), or a NUL
byte in any header value. -/
def RequestFilter.hasHeaderManipulation (_rf : RequestFilter) (headers : Headers) : Bool :=
  let singleValueHeaders := ["host", "content-type", "content-length"]
  if singleValueHeaders.any (fun h => decide (1 < (hIndex headers h).length)) then
    true
  else
    headers.any (fun p => p.2.any (fun v => goContains v "\x00"))

/-- `RequestFilter.checkSuspiciousHeaders`: every configured header name whose
(present) values include a malicious-pattern match, then the
`header_manipulation` marker. -/
def RequestFilter.checkSuspiciousHeaders (rf : RequestFilter) (headers : Headers) :
    List String :=
  let suspicious := rf.suspiciousHeaders.filter
    (fun h => (hIndex headers h).any (fun v => rf.hasMaliciousPattern v))
  if rf.hasHeaderManipulation headers then
    suspicious ++ ["header_manipulation"]
  else suspicious

/-- `RequestFilter.isHighFrequency`: strictly more than 100 recorded requests
from this address in the last 5 minutes (`reqTime.After(cutoff)` is a strict
comparison). -/
def RequestFilter.isHighFrequency (rf : RequestFilter) (now : ℤ) (ip : String) : Bool :=
  let cutoff := now - historyWindow
  let count := (rf.requestHistory ip).countP (fun reqTime => decide (cutoff < reqTime))
  decide (maxRequestsPerWindow < count)

/-- `RequestFilter.updateRequestHistory`: drop entries at or before
`now - 5min`, append `now`. -/
def RequestFilter.updateRequestHistory (rf : RequestFilter) (now : ℤ) (ip : String) :
    RequestFilter :=
  let cutoff := now - historyWindow
  let valid := (rf.requestHistory ip).filter (fun reqTime => decide (cutoff < reqTime))
  { rf with requestHistory := fun k =>
      if k == ip then valid ++ [now] else rf.requestHistory k }

/-- `RequestFilter.isSuspiciousMethod`: TRACE, DEBUG or OPTIONS, compared
case-insensitively (`strings.EqualFold`). -/
def RequestFilter.isSuspiciousMethod (_rf : RequestFilter) (method : String) : Bool :=
  ["TRACE", "DEBUG", "OPTIONS"].any (fun s => equalFold method s)

/-- `RequestFilter.hasMissingHeaders`: no User-Agent value
(`headers.Get("user-agent")`, which canonicalises the key). -/
def RequestFilter.hasMissingHeaders (_rf : RequestFilter) (headers : Headers) : Bool :=
  hGet headers "user-agent" == ""

/-- `RequestFilter.FilterRequest`: the full filtering pass, returning the
`FilterResult` and the filter state with the updated request history.  The
early-return structure of the Go function is mirrored exactly: size, blocked
user agent and malicious URL pattern are terminal; suspicious headers only
raise the risk score; the high-frequency check adds 20 and is terminal when
the score after that addition exceeds 50; suspicious method and missing
User-Agent add 15 and 10; a final score above 100 blocks with `HIGH_RISK`. -/
def RequestFilter.FilterRequest (rf : RequestFilter) (now : ℤ) (req : Request) :
    FilterResult × RequestFilter :=
  let result : FilterResult :=
    { Allowed := true
      Reason := "Request allowed"
      RiskScore := 0
      Blocked := false
      ShouldLog := false }
  if decide (rf.maxRequestSize < req.contentLength) then
    ({ result with
        Allowed := false
        Reason := "Request size exceeds limit"
        RiskScore := result.RiskScore + 50
        Blocked := true }, rf)
  else if rf.isBlockedUserAgent req.userAgent then
    ({ result with
        Allowed := false
        Reason := "Blocked user agent"
        RiskScore := result.RiskScore + 30
        Blocked := true }, rf)
  else
    let suspicious := rf.checkSuspiciousHeaders req.headers
    let result :=
      if decide (0 < suspicious.length) then
        { result with
            RiskScore := result.RiskScore + suspicious.length * 10
            ShouldLog := true
            Reason := "Suspicious headers: " ++ String.intercalate ", " suspicious }
      else result
    if rf.hasMaliciousPattern (req.path ++ req.rawQuery) then
      ({ result with
          Allowed := false
          Reason := "Malicious pattern detected in URL"
          RiskScore := result.RiskScore + 80
          Blocked := true }, rf)
    else
      let freq := rf.isHighFrequency now req.remoteAddr
      let result :=
        if freq then
          { result with
              RiskScore := result.RiskScore + 20
              ShouldLog := true }
        else result
      if freq && decide (50 < result.RiskScore) then
        ({ result with
            Allowed := false
            Reason := "High frequency requests detected"
            Blocked := true }, rf)
      else
        let result :=
          if rf.isSuspiciousMethod req.method then
            { result with
                RiskScore := result.RiskScore + 15
                ShouldLog := true }
          else result
        let result :=
          if rf.hasMissingHeaders req.headers then
            { result with
                RiskScore := result.RiskScore + 10
                ShouldLog := true }
          else result
        let rf := rf.updateRequestHistory now req.remoteAddr
        if decide (100 < result.RiskScore) then
          ({ result with
              Allowed := false
              Reason := "High risk score: " ++ toString result.RiskScore
              Blocked := true }, rf)
        else (result, rf)

end filter

/-- Lookup in an association list modelling a Go map (`nil`-like `none` miss). -/
def alookup {β : Type} (l : List (String × β)) (k : String) : Option β :=
  match l.find? (fun p => p.1 == k) with
  | some p => some p.2
  | none => none

/-- Store a value in an association list modelling a Go map: replace the
existing binding or append a new one. -/
def astore {β : Type} (l : List (String × β)) (k : String) (v : β) :
    List (String × β) :=
  match l with
  | [] => [(k, v)]
  | p :: tl => if p.1 == k then (k, v) :: tl else p :: astore tl k v

/-- Increment a counter map entry (`m[k]++` on a Go `map[string]int`). -/
def abump (l : List (String × ℤ)) (k : String) : List (String × ℤ) :=
  match alookup l k with
  | some n => astore l k (n + 1)
  | none => astore l k 1

namespace botnet

/-- Per-IP behaviour record `IPBehavior`. -/
structure IPBehavior where
  ip : String
  requestCount : ℤ
  firstSeen : ℤ
  lastSeen : ℤ
  userAgents : List (String × ℤ)
  requestPaths : List (String × ℤ)
  responseTimes : List ℤ
  requestIntervals : List ℤ
  hasJavascript : Bool
  hasCSS : Bool
  hasImages : Bool
  hasFavicon : Bool
  hasRobotsTxt : Bool
  hasSitemap : Bool

/-- Global counters `GlobalPatterns` (the anomaly-baseline fields the code
never writes are omitted). -/
structure GlobalPatterns where
  totalRequests : ℤ
  commonUserAgents : List (String × ℤ)
  commonPaths : List (String × ℤ)
  geographicSpread : List (String × ℤ)
  networkSpread : List (String × ℤ)

/-- Per-network aggregate `NetworkStats`. -/
structure NetworkStats where
  network : String
  ipCount : ℤ
  requestCount : ℤ
  avgResponseTime : ℤ
  firstSeen : ℤ

/-- Burst-window record `BurstPattern`; the key of the owning map is the
pair (minute-of-hour, second/10) that Go renders as "%d-%d". -/
structure BurstPattern where
  startTime : ℤ
  endTime : ℤ
  ipCount : ℤ
  requestCount : ℤ

/-- The `BotnetDetector` state. -/
structure BotnetDetector where
  requestPatterns : List (String × IPBehavior)
  globalPatterns : GlobalPatterns
  networkRanges : List (String × NetworkStats)
  burstPatterns : List ((ℤ × ℤ) × BurstPattern)
  detectionThreshold : ℚ
  analysisWindow : ℤ

/-- Analysis result `BotnetAnalysis`. -/
structure BotnetAnalysis where
  ip : String
  timestamp : ℤ
  isBotnet : Bool
  confidence : ℚ
  indicators : List String
  riskScore : ℤ

/-- `NewBotnetDetector`. -/
def NewBotnetDetector (threshold : ℚ) (window : ℤ) : BotnetDetector :=
  { requestPatterns := []
    globalPatterns :=
      { totalRequests := 0
        commonUserAgents := []
        commonPaths := []
        geographicSpread := []
        networkSpread := [] }
    networkRanges := []
    burstPatterns := []
    detectionThreshold := threshold
    analysisWindow := window }

/-- `getCountryFromIP`: the first two dot-separated components, else "unknown". -/
def getCountryFromIP (ip : String) : String :=
  match goSplit ip '.' with
  | a :: b :: _ => a ++ "." ++ b
  | _ => "unknown"

/-- `getNetworkFromIP`: the first three dot-separated components, else "unknown". -/
def getNetworkFromIP (ip : String) : String :=
  match goSplit ip '.' with
  | a :: b :: c :: _ => a ++ "." ++ b ++ "." ++ c
  | _ => "unknown"

/-- `calculateAverageResponseTime` / `calculateAverageInterval`: zero on the
empty list, else the integer quotient of the sum by the length (the durations
involved are non-negative, where Go's truncating division and floor division
agree). -/
def calculateAverage (times : List ℤ) : ℤ :=
  if times.length = 0 then 0 else times.sum / (times.length : ℤ)

/-- `updateBehavioralIndicators`: derive browser-like capability flags from
the path. -/
def updateBehavioralIndicators (b : IPBehavior) (path : String) : IPBehavior :=
  let b := if goContains path "/static/" || goContains path ".js" then
    { b with hasJavascript := true } else b
  let b := if goContains path ".css" then { b with hasCSS := true } else b
  let b := if goContains path ".png" || goContains path ".jpg" || goContains path ".gif" then
    { b with hasImages := true } else b
  let b := if goContains path "favicon.ico" then { b with hasFavicon := true } else b
  let b := if goContains path "robots.txt" then { b with hasRobotsTxt := true } else b
  let b := if goContains path "sitemap.xml" then { b with hasSitemap := true } else b
  b

/-- `updateIPBehavior`: append the inter-request interval (the stored
`LastSeen` is never the Go zero time, so the `IsZero` guard never fires) and
the response time, both capped at 100 entries by dropping the oldest, bump
the counters and refresh the capability flags. -/
def updateIPBehavior (b : IPBehavior) (now : ℤ) (userAgent path : String)
    (responseTime : ℤ) : IPBehavior :=
  let intervals := b.requestIntervals ++ [now - b.lastSeen]
  let intervals := if 100 < intervals.length then intervals.drop 1 else intervals
  let rts := b.responseTimes ++ [responseTime]
  let rts := if 100 < rts.length then rts.drop 1 else rts
  let b := { b with
    requestIntervals := intervals
    requestCount := b.requestCount + 1
    lastSeen := now
    userAgents := abump b.userAgents userAgent
    requestPaths := abump b.requestPaths path
    responseTimes := rts }
  updateBehavioralIndicators b path

/-- `getOrCreateIPBehavior`. -/
def getOrCreateIPBehavior (bd : BotnetDetector) (now : ℤ) (ip : String) :
    IPBehavior :=
  match alookup bd.requestPatterns ip with
  | some b => b
  | none =>
    { ip := ip
      requestCount := 0
      firstSeen := now
      lastSeen := now
      userAgents := []
      requestPaths := []
      responseTimes := []
      requestIntervals := []
      hasJavascript := false
      hasCSS := false
      hasImages := false
      hasFavicon := false
      hasRobotsTxt := false
      hasSitemap := false }

/-- `updateGlobalPatterns`. -/
def updateGlobalPatterns (bd : BotnetDetector) (ip userAgent path : String) :
    BotnetDetector :=
  let p := bd.globalPatterns
  { bd with globalPatterns :=
      { p with
        totalRequests := p.totalRequests + 1
        commonUserAgents := abump p.commonUserAgents userAgent
        commonPaths := abump p.commonPaths path
        geographicSpread := abump p.geographicSpread (getCountryFromIP ip)
        networkSpread := abump p.networkSpread (getNetworkFromIP ip) } }

/-- Append an indicator label and add its risk contribution. -/
def addIndicator (a : BotnetAnalysis) (label : String) (risk : ℤ) :
    BotnetAnalysis :=
  { a with
    indicators := a.indicators ++ [label]
    riskScore := a.riskScore + risk }

/-- `analyzeBehavior`: the seven per-IP indicator checks, in source order. -/
def analyzeBehavior (b : IPBehavior) (a : BotnetAnalysis) : BotnetAnalysis :=
  let a := if decide (20 < b.requestCount) && !b.hasJavascript then
    addIndicator a "No JavaScript requests" 20 else a
  let a := if decide (20 < b.requestCount) && !b.hasCSS then
    addIndicator a "No CSS requests" 15 else a
  let a := if decide (50 < b.requestCount) then
    addIndicator a "Very high request frequency" 25 else a
  let a := if decide (20 < b.requestCount) && !b.hasImages then
    addIndicator a "No image requests" 10 else a
  let a := if b.userAgents.length == 1 && decide (20 < b.requestCount) then
    addIndicator a "Single user agent" 10 else a
  let a := if decide (20 < b.responseTimes.length) &&
      decide (calculateAverage b.responseTimes < 5000000) then
    addIndicator a "Suspiciously fast response times" 15 else a
  let a := if decide (20 < b.requestIntervals.length) &&
      decide (calculateAverage b.requestIntervals < 50000000) then
    addIndicator a "Suspiciously regular intervals" 15 else a
  a

/-- `analyzeNetwork`: bump the per-network counter (once per analysed request,
whatever the source IP) and flag the network once the counter exceeds 100. -/
def analyzeNetwork (bd : BotnetDetector) (now : ℤ) (ip : String)
    (a : BotnetAnalysis) : BotnetDetector × BotnetAnalysis :=
  let network := getNetworkFromIP ip
  let stats :=
    match alookup bd.networkRanges network with
    | some s => s
    | none =>
      { network := network
        ipCount := 0
        requestCount := 0
        avgResponseTime := 0
        firstSeen := now }
  let stats := { stats with ipCount := stats.ipCount + 1 }
  let bd := { bd with networkRanges := astore bd.networkRanges network stats }
  let a := if decide (100 < stats.ipCount) then
    addIndicator a "High IP count from network" 30 else a
  (bd, a)

/-- `analyzeTiming`: count the tracked IPs whose last sighting is inside the
analysis window; flag when more than 1000 are active and the wall-clock
second is a multiple of ten. -/
def analyzeTiming (bd : BotnetDetector) (now : ℤ) (a : BotnetAnalysis) :
    BotnetAnalysis :=
  let windowStart := now - bd.analysisWindow
  let requestCount :=
    bd.requestPatterns.countP (fun p => decide (windowStart < p.2.lastSeen))
  if decide (1000 < requestCount) && unixSec now % 60 % 10 == 0 then
    addIndicator a "Coordinated timing pattern" 40
  else a

/-- `analyzeGlobalPatterns`: geographic spread above 50 buckets and network
spread above 100 buckets. -/
def analyzeGlobalPatterns (bd : BotnetDetector) (a : BotnetAnalysis) :
    BotnetAnalysis :=
  let p := bd.globalPatterns
  let a := if decide (50 < p.geographicSpread.length) then
    addIndicator a "Unusual geographic distribution" 25 else a
  let a := if decide (100 < p.networkSpread.length) then
    addIndicator a "Unusual network distribution" 30 else a
  a

/-- `analyzeCoordination`: bump the burst window keyed by
(minute-of-hour, ten-second slot) and flag once its counter exceeds 100. -/
def analyzeCoordination (bd : BotnetDetector) (now : ℤ) (a : BotnetAnalysis) :
    BotnetDetector × BotnetAnalysis :=
  let burstKey : ℤ × ℤ := (unixSec now / 60 % 60, unixSec now % 60 / 10)
  let burst :=
    match (bd.burstPatterns.find? (fun p => p.1 == burstKey)).map (fun p => p.2) with
    | some b => b
    | none =>
      { startTime := now
        endTime := 0
        ipCount := 0
        requestCount := 0 }
  let burst := { burst with ipCount := burst.ipCount + 1, endTime := now }
  let bd := { bd with burstPatterns :=
      match bd.burstPatterns.find? (fun p => p.1 == burstKey) with
      | some _ => bd.burstPatterns.map (fun p => if p.1 == burstKey then (burstKey, burst) else p)
      | none => bd.burstPatterns ++ [(burstKey, burst)] }
  let a := if decide (100 < burst.ipCount) then
    addIndicator a "Coordinated burst attack" 50 else a
  (bd, a)

/-- `calculateFinalDecision`: confidence from risk/200 plus 0.05 per
indicator, capped at 1; botnet iff confidence reaches the threshold; a risk
score of at least 300 forces the botnet verdict and a confidence of at
least 0.8. -/
def calculateFinalDecision (bd : BotnetDetector) (a : BotnetAnalysis) :
    BotnetAnalysis :=
  let baseConfidence : ℚ := (a.riskScore : ℚ) / 200
  let indicatorBonus : ℚ := (a.indicators.length : ℚ) * 0.05
  let conf := baseConfidence + indicatorBonus
  let conf := if 1 < conf then 1 else conf
  let isB := decide (bd.detectionThreshold ≤ conf)
  if decide (300 ≤ a.riskScore) then
    { a with
      isBotnet := true
      confidence := if conf < 0.8 then 0.8 else conf }
  else
    { a with isBotnet := isB, confidence := conf }

/-- `BotnetDetector.AnalyzeRequest`: the full per-request analysis, returning
the verdict and the updated detector state. -/
def BotnetDetector.AnalyzeRequest (bd : BotnetDetector) (now : ℤ)
    (ip userAgent path : String) (responseTime : ℤ) :
    BotnetAnalysis × BotnetDetector :=
  let behavior := getOrCreateIPBehavior bd now ip
  let behavior := updateIPBehavior behavior now userAgent path responseTime
  let bd := { bd with requestPatterns := astore bd.requestPatterns ip behavior }
  let bd := updateGlobalPatterns bd ip userAgent path
  let a : BotnetAnalysis :=
    { ip := ip
      timestamp := now
      isBotnet := false
      confidence := 0
      indicators := []
      riskScore := 0 }
  let a := analyzeBehavior behavior a
  let (bd, a) := analyzeNetwork bd now ip a
  let a := analyzeTiming bd now a
  let a := analyzeGlobalPatterns bd a
  let (bd, a) := analyzeCoordination bd now a
  let a := calculateFinalDecision bd a
  (a, bd)

end botnet

namespace monitor

/-- A traffic alert. -/
structure Alert where
  type : String
  severity : String
  message : String
  timestamp : ℤ
  ip : String
  requestCount : ℤ
  responseTime : ℤ
deriving DecidableEq, Repr

/-- The `TrafficMonitor` mutable counters. -/
structure TrafficMonitor where
  requestCounts : List (String × ℤ)
  responseTimes : List (String × List ℤ)
  errorCounts : List (String × ℤ)
  alertThreshold : ℤ

/-- `TrafficMonitor.getClientIP`: the whole `X-Forwarded-For` value, else the
whole `X-Real-IP` value, else the raw remote address (port included) — with
no splitting or trimming. -/
def getClientIP (hs : Headers) (remoteAddr : String) : String :=
  let xff := hGet hs "X-Forwarded-For"
  if xff != "" then xff
  else
    let xri := hGet hs "X-Real-IP"
    if xri != "" then xri
    else remoteAddr

/-- `TrafficMonitor.calculateAverageResponseTime`. -/
def calculateAverageResponseTime (times : List ℤ) : ℤ :=
  if times.length = 0 then 0 else times.sum / (times.length : ℤ)

/-- `TrafficMonitor.checkAlerts`: at most one alert per condition — a
`high_request_rate` alert when the per-key count exceeds the threshold, and a
`suspicious_response_time` alert when more than 10 samples average below
10 ms. -/
def TrafficMonitor.checkAlerts (tm : TrafficMonitor) (now : ℤ)
    (clientIP : String) : List Alert :=
  let requestCount := (alookup tm.requestCounts clientIP).getD 0
  let a1 : List Alert :=
    if decide (tm.alertThreshold < requestCount) then
      [{ type := "high_request_rate"
         severity := "warning"
         message := "High request rate detected for IP " ++ clientIP ++ ": "
           ++ toString requestCount ++ " requests"
         timestamp := now
         ip := clientIP
         requestCount := requestCount
         responseTime := 0 }]
    else []
  let a2 : List Alert :=
    match alookup tm.responseTimes clientIP with
    | some rts =>
      if decide (10 < rts.length) then
        let avg := calculateAverageResponseTime rts
        if decide (avg < 10000000) then
          [{ type := "suspicious_response_time"
             severity := "info"
             message := "Suspiciously fast response times for IP " ++ clientIP
             timestamp := now
             ip := clientIP
             requestCount := 0
             responseTime := avg }]
        else []
      else []
    | none => []
  a1 ++ a2

/-- `TrafficMonitor.RecordRequest`: bump the per-key counters under the
monitor's own client key, cap the response-time ring at 100, count errors for
status ≥ 400, and return the alerts the call emits. -/
def TrafficMonitor.RecordRequest (tm : TrafficMonitor) (now : ℤ) (req : Request)
    (responseTime : ℤ) (statusCode : ℤ) : TrafficMonitor × List Alert :=
  let clientIP := getClientIP req.headers req.remoteAddr
  let tm := { tm with requestCounts := abump tm.requestCounts clientIP }
  let rts := (alookup tm.responseTimes clientIP).getD [] ++ [responseTime]
  let rts := if 100 < rts.length then rts.drop 1 else rts
  let tm := { tm with responseTimes := astore tm.responseTimes clientIP rts }
  let tm :=
    if decide (400 ≤ statusCode) then
      { tm with errorCounts := abump tm.errorCounts clientIP }
    else tm
  (tm, tm.checkAlerts now clientIP)

end monitor

namespace ddos

/-- The decision the protection middleware reaches for one request, by the
stable code attached to the JSON error envelope (`allow` = the request is
forwarded to the handler). -/
inductive Decision where
  | allow
  | blockedIP
  | rateLimited
  | filtered
  | botnetDetected
deriving DecidableEq, Repr

/-- The configuration slice the middleware reads. -/
structure ProtectionConfig where
  ipBlacklistEnabled : Bool
  requestFilterEnabled : Bool
  blacklistDurationSec : ℤ

/-- `ProtectionService.getClientIP`: first comma-separated `X-Forwarded-For`
element, trimmed; else `X-Real-IP` trimmed; else the remote address up to its
first colon (`strings.Cut`), or whole if it has none. -/
def getClientIP (hs : Headers) (remoteAddr : String) : String :=
  let xff := hGet hs "X-Forwarded-For"
  if xff != "" then
    trimSpace ((goSplit xff ',').headD xff)
  else
    let xri := hGet hs "X-Real-IP"
    if xri != "" then trimSpace xri
    else (goSplit remoteAddr ':').headD remoteAddr

/-- A rate-limiter capability (`ratelimit.Limiter.Allow`), as a state
transformer given the receipt instant and the client key. -/
def Limiter (σ : Type) : Type := σ → ℤ → String → Bool × σ

/-- The Redis sliding-window limiter as a `Limiter` over a per-key store of
score sets, with a healthy remote. -/
def redisLimiter (limit : ℕ) (window : ℤ) : Limiter (String → List ℤ) :=
  fun st now key =>
    let r := ratelimit.redisAllowStep true limit window (st ("rate_limit:" ++ key)) now
    (r.1, fun k => if k == "rate_limit:" ++ key then r.2 else st k)

/-- The mutable state the middleware threads through one request. -/
structure ServiceState (σ : Type) where
  ipManager : blacklist.IPManager
  rlState : σ
  requestFilter : filter.RequestFilter
  botnetDetector : botnet.BotnetDetector
  trafficMonitor : monitor.TrafficMonitor

/-- `ProtectionService.ProtectionMiddleware`, one request: reputation check
(blacklist only — there is no separate whitelist short-circuit), rate limit
with auto-blacklist on denial, request filter, botnet analysis with
auto-blacklist above confidence 0.8, then the handler and the traffic-monitor
recording.  `respTime` is the observed downstream latency and `status` the
downstream status code; both only matter on the allow path. -/
def middlewareStep {σ : Type} (cfg : ProtectionConfig) (limiter : Limiter σ)
    (s : ServiceState σ) (now : ℤ) (req : Request) (respTime status : ℤ) :
    Decision × ServiceState σ :=
  let clientIP := getClientIP req.headers req.remoteAddr
  if cfg.ipBlacklistEnabled && s.ipManager.IsBlacklisted now clientIP then
    (.blockedIP, s)
  else
    let rl := limiter s.rlState now clientIP
    let s := { s with rlState := rl.2 }
    if !rl.1 then
      let s :=
        if s.ipManager.ShouldAutoBlacklist clientIP 100 then
          { s with ipManager :=
              (s.ipManager.BlacklistIP now clientIP (cfg.blacklistDurationSec * nsPerSec)).1 }
        else s
      (.rateLimited, s)
    else
      let fr :=
        if cfg.requestFilterEnabled then s.requestFilter.FilterRequest now req
        else ({ Allowed := true
                Reason := ""
                RiskScore := 0
                Blocked := false
                ShouldLog := false }, s.requestFilter)
      let s := { s with requestFilter := fr.2 }
      if cfg.requestFilterEnabled && !fr.1.Allowed then
        (.filtered, s)
      else
        let bn := s.botnetDetector.AnalyzeRequest now clientIP req.userAgent req.path 0
        let s := { s with botnetDetector := bn.2 }
        if bn.1.isBotnet then
          let s :=
            if decide ((0.8 : ℚ) < bn.1.confidence) then
              { s with ipManager :=
                  (s.ipManager.BlacklistIP now clientIP (cfg.blacklistDurationSec * nsPerSec)).1 }
            else s
          (.botnetDetected, s)
        else
          let mon := s.trafficMonitor.RecordRequest now req respTime status
          (.allow, { s with trafficMonitor := mon.1 })

/-- `ProtectionService.handleAlert`: auto-blacklist the alert's IP on a
`high_request_rate` alert with a non-empty IP, using the configured lease. -/
def handleAlert (cfg : ProtectionConfig) (im : blacklist.IPManager) (now : ℤ)
    (alert : monitor.Alert) : blacklist.IPManager :=
  if alert.type == "high_request_rate" && alert.ip != "" then
    (im.BlacklistIP now alert.ip (cfg.blacklistDurationSec * nsPerSec)).1
  else im

/-- The parameters a configured rate limiter holds: the Redis sliding window
keeps (limit, window); the local token bucket keeps (rate per second, burst). -/
inductive LimiterParams where
  | redisWindow (limit : ℤ) (windowSec : ℤ)
  | tokenBucket (ratePerSec : ℚ) (burst : ℤ)
deriving DecidableEq, Repr

/-- The rate-limit configuration record. -/
structure RateLimitConfig where
  requestsPerMinute : ℤ
  burstSize : ℤ
  windowSize : ℤ
deriving DecidableEq, Repr

/-- `ProtectionService.initRateLimiter`: Redis-backed sliding window when a
Redis client exists, else an in-memory token bucket at `rpm/60` per second. -/
def initRateLimiter (redisPresent : Bool) (cfg : RateLimitConfig) : LimiterParams :=
  if redisPresent then .redisWindow cfg.requestsPerMinute cfg.windowSize
  else .tokenBucket ((cfg.requestsPerMinute : ℚ) / 60) cfg.burstSize

/-- `ProtectionService.UpdateRateLimitConfig`: overwrite the two configuration
fields and re-initialise the limiter; the Go method performs no validation and
always returns nil, modelled by the always-`none` error component. -/
def UpdateRateLimitConfig (redisPresent : Bool) (cfg : RateLimitConfig)
    (requestsPerMinute burstSize : ℤ) :
    Option String × RateLimitConfig × LimiterParams :=
  let cfg' := { cfg with
    requestsPerMinute := requestsPerMinute
    burstSize := burstSize }
  (none, cfg', initRateLimiter redisPresent cfg')

end ddos

/-! ## Claims -/

/-- Claim C2: for every key k and duration d, after whitelist(k) then
blacklist(k, d), the blacklist call fails with the whitelist-conflict error,
it leaves the manager state untouched (no blacklist entry is recorded), and
is_blacklisted(k) stays false — whatever the initial state, the remote store,
and the query instant. -/
theorem C2_whitelist_dominates (im : blacklist.IPManager) (k : String)
    (d now now2 : ℤ) :
    (((im.WhitelistIP k).1).BlacklistIP now k d).2 = some .conflictWhitelisted ∧
    (((im.WhitelistIP k).1).BlacklistIP now k d).1 = (im.WhitelistIP k).1 ∧
    ((im.WhitelistIP k).1).IsBlacklisted now2 k = false := by
  have hw : ((im.WhitelistIP k).1).whitelistedIPs k = true := by
    unfold blacklist.IPManager.WhitelistIP
    cases h : im.client with
    | none => simp
    | some rm => cases hr : rm.up <;> simp [hr]
  refine ⟨?_, ?_, ?_⟩
  · unfold blacklist.IPManager.BlacklistIP
    simp [hw]
  · unfold blacklist.IPManager.BlacklistIP
    simp [hw]
  · unfold blacklist.IPManager.IsBlacklisted blacklist.IPManager.IsWhitelisted
    simp [hw]

/-- Claim C3: when every remote-store operation errors (the client is present
but down, and the limiter pipeline execution fails), both protection lookups
fail open — is_blacklisted is false whenever the local cache holds no
unexpired entry for the key, and the sliding-window allow returns true for
any key and store contents. -/
theorem C3_fail_open (im : blacklist.IPManager) (rm : RedisModel) (k : String)
    (now : ℤ) (limit : ℕ) (window : ℤ) (st : List ℤ)
    (hclient : im.client = some rm) (hdown : rm.up = false)
    (hlocal : ∀ e, im.blacklistedIPs k = some e → e ≤ now) :
    im.IsBlacklisted now k = false ∧
    (ratelimit.redisAllowStep false limit window st now).1 = true := by
  constructor
  · unfold blacklist.IPManager.IsBlacklisted blacklist.IPManager.IsWhitelisted
    rw [hclient]
    cases hb : im.blacklistedIPs k with
    | none => simp [hdown]
    | some e =>
      have he : ¬ now < e := not_lt.mpr (hlocal e hb)
      simp [hdown, he]
  · unfold ratelimit.redisAllowStep
    simp

/-- Witness for C3 at a concrete manager, store and key. -/
theorem C3_fail_open_witness :
    blacklist.IPManager.IsBlacklisted
      { blacklistedIPs := fun _ => none
        whitelistedIPs := fun _ => false
        client := some { up := false, present := fun _ => true }
        autoBlacklist := true
        threshold := 100 } 0 "198.51.100.7" = false ∧
    (ratelimit.redisAllowStep false 60 60000000000 [0, 0, 0] 0).1 = true :=
  C3_fail_open _ { up := false, present := fun _ => true } "198.51.100.7"
    0 60 60000000000 [0, 0, 0] rfl rfl (fun _e h => Option.noConfusion h)

/-- Claim C5: the final behavioural decision has confidence
min(1, risk/200 + 0.05·|indicators|); it flags a botnet exactly when that
confidence reaches the configured threshold or the risk score is at
least 300; and a risk score of at least 300 forces confidence ≥ 0.8. -/
theorem C5_final_decision (bd : botnet.BotnetDetector) (a : botnet.BotnetAnalysis) :
    (botnet.calculateFinalDecision bd a).confidence
        = min 1 ((a.riskScore : ℚ) / 200 + (a.indicators.length : ℚ) * 0.05) ∧
    ((botnet.calculateFinalDecision bd a).isBotnet = true ↔
      (bd.detectionThreshold ≤ (botnet.calculateFinalDecision bd a).confidence
        ∨ 300 ≤ a.riskScore)) ∧
    (300 ≤ a.riskScore → (0.8 : ℚ) ≤ (botnet.calculateFinalDecision bd a).confidence) := by
  unfold botnet.calculateFinalDecision
  set x : ℚ := (a.riskScore : ℚ) / 200 + (a.indicators.length : ℚ) * 0.05 with hx
  have hmin : (if 1 < x then (1 : ℚ) else x) = min 1 x := by
    rcases lt_or_le 1 x with h | h
    · simp [h, min_eq_left h.le]
    · simp [not_lt.mpr h, min_eq_right h]
  by_cases h3 : (300 : ℤ) ≤ a.riskScore
  · have hbase : (3 : ℚ) / 2 ≤ (a.riskScore : ℚ) / 200 := by
      have : (300 : ℚ) ≤ (a.riskScore : ℚ) := by exact_mod_cast h3
      linarith
    have hbonus : (0 : ℚ) ≤ (a.indicators.length : ℚ) * 0.05 := by positivity
    have hxge : (1 : ℚ) < x := by rw [hx]; linarith
    have hcap : (if 1 < x then (1 : ℚ) else x) = 1 := by simp [hxge]
    have h08 : ¬ ((1 : ℚ) < 0.8) := by norm_num
    refine ⟨?_, ?_, ?_⟩
    · simp [h3, hcap, h08, min_eq_left hxge.le]
    · simp [h3, hcap, h08]
    · intro _
      simp [h3, hcap, h08]
      norm_num
  · refine ⟨?_, ?_, ?_⟩
    · simp [h3, hmin]
    · simp [h3]
    · intro h
      exact absurd h h3

/-- Witness for C5: a risk score of 310 forces confidence at least 0.8. -/
theorem C5_final_decision_witness :
    (0.8 : ℚ) ≤ (botnet.calculateFinalDecision
      (botnet.NewBotnetDetector 0.8 60000000000)
      { ip := "203.0.113.9"
        timestamp := 0
        isBotnet := false
        confidence := 0
        indicators := ["Coordinated burst attack"]
        riskScore := 310 }).confidence :=
  (C5_final_decision (botnet.NewBotnetDetector 0.8 60000000000)
    { ip := "203.0.113.9"
      timestamp := 0
      isBotnet := false
      confidence := 0
      indicators := ["Coordinated burst attack"]
      riskScore := 310 }).2.2 (by decide)

/-- Claim C7 (evaluation at the failing input): a request whose Host header
carries two values — stored, as Go's net/http does, under the canonical key
"Host" — is not marked as header manipulation, because the code indexes the
header map with the lower-case literals "host", "content-type" and
"content-length", which never match the canonical keys of a parsed request. -/
theorem C7_host_duplicate_not_flagged :
    filter.RequestFilter.hasHeaderManipulation
      { maxRequestSize := 1048576
        suspiciousHeaders := []
        blockedUserAgentRe := []
        maliciousPatterns := []
        requestHistory := fun _ => [] }
      [("Host", ["a.example", "b.example"])] = false ∧
    filter.RequestFilter.checkSuspiciousHeaders
      { maxRequestSize := 1048576
        suspiciousHeaders := []
        blockedUserAgentRe := []
        maliciousPatterns := []
        requestHistory := fun _ => [] }
      [("Host", ["a.example", "b.example"])] = [] := by
  constructor
  · rfl
  · rfl

/-- Claim C9 (counterexample): updating the rate-limit configuration with the
invalid values requests_per_minute = -5 and burst = 0 does not fail — the
call succeeds, the old configuration is replaced, and the new limiter is
built from the invalid values. -/
theorem C9_counterexample :
    (ddos.UpdateRateLimitConfig true
      { requestsPerMinute := 60, burstSize := 10, windowSize := 60 } (-5) 0).1 = none ∧
    (ddos.UpdateRateLimitConfig true
      { requestsPerMinute := 60, burstSize := 10, windowSize := 60 } (-5) 0).2.1
      ≠ { requestsPerMinute := 60, burstSize := 10, windowSize := 60 } ∧
    (ddos.UpdateRateLimitConfig true
      { requestsPerMinute := 60, burstSize := 10, windowSize := 60 } (-5) 0).2.1.requestsPerMinute
      = -5 := by
  refine ⟨rfl, ?_, rfl⟩
  decide

/-- Claim C9 (amended): `UpdateRateLimitConfig` performs no validation — for
every pair of integers it succeeds, overwrites the stored configuration with
exactly the supplied values, and re-initialises the limiter from them (the
sliding window takes the new limit, the token bucket the new rate and burst). -/
theorem C9_update_config_amended (redisPresent : Bool)
    (cfg : ddos.RateLimitConfig) (rpm burst : ℤ) :
    (ddos.UpdateRateLimitConfig redisPresent cfg rpm burst).1 = none ∧
    (ddos.UpdateRateLimitConfig redisPresent cfg rpm burst).2.1
      = { requestsPerMinute := rpm, burstSize := burst, windowSize := cfg.windowSize } ∧
    (ddos.UpdateRateLimitConfig redisPresent cfg rpm burst).2.2
      = (if redisPresent then ddos.LimiterParams.redisWindow rpm cfg.windowSize
         else ddos.LimiterParams.tokenBucket ((rpm : ℚ) / 60) burst) := by
  unfold ddos.UpdateRateLimitConfig ddos.initRateLimiter
  cases redisPresent <;> simp

/-- The C10 scenario request: an X-Forwarded-For header listing two
addresses, and a remote address that carries a port. -/
def c10Request : Request :=
  { method := "GET"
    path := "/demo/"
    rawQuery := ""
    contentLength := 0
    headers := [("X-Forwarded-For", ["203.0.113.5, 198.51.100.7"]),
                ("User-Agent", ["Mozilla/5.0"])]
    remoteAddr := "192.0.2.4:5555" }

/-- A fresh traffic monitor with alert threshold 3. -/
def c10Monitor0 : monitor.TrafficMonitor :=
  { requestCounts := []
    responseTimes := []
    errorCounts := []
    alertThreshold := 3 }

/-- Record the C10 request once, keeping only the monitor state. -/
def c10Record (tm : monitor.TrafficMonitor) : monitor.TrafficMonitor :=
  (tm.RecordRequest 0 c10Request 20000000 200).1

/-- The alerts emitted by the fourth consecutive recording of the request. -/
def c10Alerts : List monitor.Alert :=
  ((c10Record (c10Record (c10Record c10Monitor0))).RecordRequest
    0 c10Request 20000000 200).2

/-- A fresh IP manager (no Redis) for the C10 scenario. -/
def c10Manager0 : blacklist.IPManager :=
  { blacklistedIPs := fun _ => none
    whitelistedIPs := fun _ => false
    client := none
    autoBlacklist := true
    threshold := 100 }

/-- The manager after the alert handler consumed the emitted alert. -/
def c10Manager1 : blacklist.IPManager :=
  ddos.handleAlert
    { ipBlacklistEnabled := true, requestFilterEnabled := true, blacklistDurationSec := 3600 }
    c10Manager0 0
    (c10Alerts.headD
      { type := "", severity := "", message := "", timestamp := 0, ip := "",
        requestCount := 0, responseTime := 0 })

/-- Claim C10: the traffic monitor's client-key extraction differs from the
pipeline's — on a request whose X-Forwarded-For holds two addresses the
pipeline key is the first trimmed element while the monitor key is the whole
header value; the monitor's fourth recording of that request emits a
high_request_rate alert under the monitor key, the alert handler blacklists
that key, and the pipeline's reputation lookup under its own key still
answers false (while the monitor key is the one blacklisted). -/
theorem C10_key_extraction_divergence :
    ddos.getClientIP c10Request.headers c10Request.remoteAddr = "203.0.113.5" ∧
    monitor.getClientIP c10Request.headers c10Request.remoteAddr
      = "203.0.113.5, 198.51.100.7" ∧
    ddos.getClientIP c10Request.headers c10Request.remoteAddr
      ≠ monitor.getClientIP c10Request.headers c10Request.remoteAddr ∧
    c10Alerts.map (fun a => (a.type, a.ip))
      = [("high_request_rate", "203.0.113.5, 198.51.100.7")] ∧
    c10Manager1.IsBlacklisted 0 "203.0.113.5, 198.51.100.7" = true ∧
    c10Manager1.IsBlacklisted 0
      (ddos.getClientIP c10Request.headers c10Request.remoteAddr) = false := by
  refine ⟨rfl, rfl, by decide, rfl, by decide, by decide⟩

/-- `updateBehavioralIndicators` only touches the capability flags. -/
@[simp] lemma updateBehavioralIndicators_requestCount (b : botnet.IPBehavior)
    (p : String) :
    (botnet.updateBehavioralIndicators b p).requestCount = b.requestCount := by
  unfold botnet.updateBehavioralIndicators; split_ifs <;> rfl

/-- `updateBehavioralIndicators` leaves the user-agent map unchanged. -/
@[simp] lemma updateBehavioralIndicators_userAgents (b : botnet.IPBehavior)
    (p : String) :
    (botnet.updateBehavioralIndicators b p).userAgents = b.userAgents := by
  unfold botnet.updateBehavioralIndicators; split_ifs <;> rfl

/-- `updateBehavioralIndicators` leaves the response-time ring unchanged. -/
@[simp] lemma updateBehavioralIndicators_responseTimes (b : botnet.IPBehavior)
    (p : String) :
    (botnet.updateBehavioralIndicators b p).responseTimes = b.responseTimes := by
  unfold botnet.updateBehavioralIndicators; split_ifs <;> rfl

/-- `updateBehavioralIndicators` leaves the interval ring unchanged. -/
@[simp] lemma updateBehavioralIndicators_requestIntervals (b : botnet.IPBehavior)
    (p : String) :
    (botnet.updateBehavioralIndicators b p).requestIntervals = b.requestIntervals := by
  unfold botnet.updateBehavioralIndicators; split_ifs <;> rfl

/-- `updateBehavioralIndicators` leaves the last-seen instant unchanged. -/
@[simp] lemma updateBehavioralIndicators_lastSeen (b : botnet.IPBehavior)
    (p : String) :
    (botnet.updateBehavioralIndicators b p).lastSeen = b.lastSeen := by
  unfold botnet.updateBehavioralIndicators; split_ifs <;> rfl

/-- The very first request analysed by a fresh detector never crosses a
positive detection threshold: every indicator needs more history than one
request provides, so the risk score is 0 and the confidence 0. -/
lemma botnet_first_request_not_botnet (θ : ℚ) (w now rt : ℤ) (ip ua path : String)
    (hθ : 0 < θ) (hw : 0 < w) :
    ((botnet.NewBotnetDetector θ w).AnalyzeRequest now ip ua path rt).1.isBotnet
      = false := by
  have hlt : now - w < now := by linarith
  unfold botnet.BotnetDetector.AnalyzeRequest botnet.NewBotnetDetector
    botnet.getOrCreateIPBehavior botnet.updateIPBehavior botnet.updateGlobalPatterns
    botnet.analyzeBehavior botnet.analyzeNetwork botnet.analyzeTiming
    botnet.analyzeGlobalPatterns botnet.analyzeCoordination
    botnet.calculateFinalDecision
  simp [alookup, astore, abump, botnet.addIndicator, hlt]
  simpa using hθ

/-- When all four stages pass, the middleware forwards the request; the IP
manager is untouched and the limiter state advances by the one `Allow` call. -/
lemma middlewareStep_allow {σ : Type} (cfg : ddos.ProtectionConfig)
    (lim : ddos.Limiter σ) (s : ddos.ServiceState σ) (now : ℤ) (req : Request)
    (rt st : ℤ)
    (hb : (cfg.ipBlacklistEnabled &&
      s.ipManager.IsBlacklisted now (ddos.getClientIP req.headers req.remoteAddr)) = false)
    (hrl : (lim s.rlState now (ddos.getClientIP req.headers req.remoteAddr)).1 = true)
    (hf : (if cfg.requestFilterEnabled
      then (s.requestFilter.FilterRequest now req).1.Allowed else true) = true)
    (hbn : (s.botnetDetector.AnalyzeRequest now
      (ddos.getClientIP req.headers req.remoteAddr) req.userAgent req.path 0).1.isBotnet
      = false) :
    (ddos.middlewareStep cfg lim s now req rt st).1 = ddos.Decision.allow ∧
    (ddos.middlewareStep cfg lim s now req rt st).2.ipManager = s.ipManager ∧
    (ddos.middlewareStep cfg lim s now req rt st).2.rlState
      = (lim s.rlState now (ddos.getClientIP req.headers req.remoteAddr)).2 := by
  unfold ddos.middlewareStep
  cases hen : cfg.requestFilterEnabled with
  | true =>
    rw [hen] at hf
    simp only [if_pos trivial, if_true] at hf
    simp only [hen] at hb ⊢
    simp [hb, hrl, hf, hbn]
  | false =>
    simp only [hen] at hb ⊢
    simp [hb, hrl, hbn]

/-- When the reputation stage passes but the limiter denies, the middleware
answers RATE_LIMITED. -/
lemma middlewareStep_rateLimited {σ : Type} (cfg : ddos.ProtectionConfig)
    (lim : ddos.Limiter σ) (s : ddos.ServiceState σ) (now : ℤ) (req : Request)
    (rt st : ℤ)
    (hb : (cfg.ipBlacklistEnabled &&
      s.ipManager.IsBlacklisted now (ddos.getClientIP req.headers req.remoteAddr)) = false)
    (hrl : (lim s.rlState now (ddos.getClientIP req.headers req.remoteAddr)).1 = false) :
    (ddos.middlewareStep cfg lim s now req rt st).1 = ddos.Decision.rateLimited := by
  unfold ddos.middlewareStep
  simp [hb, hrl]

/-- The C1 scenario request, sent from the whitelisted address. -/
def c1Request : Request :=
  { method := "GET"
    path := "/demo/"
    rawQuery := ""
    contentLength := 0
    headers := [("User-Agent", ["curl/8"])]
    remoteAddr := "198.51.100.9:40000" }

/-- The C1 middleware configuration: blacklist checking and filtering on,
one-hour auto-blacklist lease. -/
def c1Config : ddos.ProtectionConfig :=
  { ipBlacklistEnabled := true
    requestFilterEnabled := true
    blacklistDurationSec := 3600 }

/-- The C1 service state: `198.51.100.9` whitelisted through `WhitelistIP`
against a healthy remote store, a fresh filter, the detector as the service
initialises it (threshold 0.8, 60 s window), and a fresh monitor. -/
def c1State0 : ddos.ServiceState (String → List ℤ) :=
  { ipManager :=
      (blacklist.IPManager.WhitelistIP
        { blacklistedIPs := fun _ => none
          whitelistedIPs := fun _ => false
          client := some { up := true, present := fun _ => false }
          autoBlacklist := true
          threshold := 100 }
        "198.51.100.9").1
    rlState := fun _ => []
    requestFilter :=
      { maxRequestSize := 1048576
        suspiciousHeaders := []
        blockedUserAgentRe := []
        maliciousPatterns := [fun s => goContains (goToLower s) "../"]
        requestHistory := fun _ => [] }
    botnetDetector := botnet.NewBotnetDetector 0.8 60000000000
    trafficMonitor :=
      { requestCounts := []
        responseTimes := []
        errorCounts := []
        alertThreshold := 1000 } }

/-- The C1 limiter: the Redis sliding window with limit 1 per 60 s window. -/
def c1Limiter : ddos.Limiter (String → List ℤ) :=
  ddos.redisLimiter 1 60000000000

/-- The C1 receipt instant of the first request. -/
def c1T0 : ℤ := 1700000000000000000

/-- Claim C1 (evaluation at the failing input): the scenario key is
whitelisted, yet the pipeline does not skip the remaining stages — the first
request is allowed, and the second rapid request from the same whitelisted
key is denied with RATE_LIMITED by the rate-limit stage. -/
theorem C1_whitelist_does_not_bypass_rate_limit :
    blacklist.IPManager.IsWhitelisted c1State0.ipManager "198.51.100.9" = true ∧
    (ddos.middlewareStep c1Config c1Limiter c1State0 c1T0 c1Request 20000000 200).1
      = ddos.Decision.allow ∧
    (ddos.middlewareStep c1Config c1Limiter
      (ddos.middlewareStep c1Config c1Limiter c1State0 c1T0 c1Request 20000000 200).2
      (c1T0 + 50000000) c1Request 20000000 200).1
      = ddos.Decision.rateLimited := by
  have hb : (c1Config.ipBlacklistEnabled && c1State0.ipManager.IsBlacklisted c1T0
      (ddos.getClientIP c1Request.headers c1Request.remoteAddr)) = false := by decide
  have hrl : (c1Limiter c1State0.rlState c1T0
      (ddos.getClientIP c1Request.headers c1Request.remoteAddr)).1 = true := by decide
  have hf : (if c1Config.requestFilterEnabled
      then (c1State0.requestFilter.FilterRequest c1T0 c1Request).1.Allowed
      else true) = true := by decide
  have hbn : (c1State0.botnetDetector.AnalyzeRequest c1T0
      (ddos.getClientIP c1Request.headers c1Request.remoteAddr)
      c1Request.userAgent c1Request.path 0).1.isBotnet = false := by
    exact botnet_first_request_not_botnet 0.8 60000000000 c1T0 0
      (ddos.getClientIP c1Request.headers c1Request.remoteAddr)
      c1Request.userAgent c1Request.path (by norm_num) (by norm_num)
  obtain ⟨h1, hip, hrls⟩ :=
    middlewareStep_allow c1Config c1Limiter c1State0 c1T0 c1Request 20000000 200
      hb hrl hf hbn
  refine ⟨by decide, h1, ?_⟩
  apply middlewareStep_rateLimited
  · rw [hip]
    decide
  · rw [hrls]
    decide

/-- Storing under a key and looking the same key up returns the stored value. -/
lemma alookup_astore_self {β : Type} (l : List (String × β)) (k : String) (v : β) :
    alookup (astore l k v) k = some v := by
  induction l with
  | nil => simp [astore, alookup]
  | cons p tl ih =>
    by_cases h : p.1 == k
    · simp [astore, alookup, h]
    · simp only [astore, h]
      simpa [alookup, h] using ih

/-- The analysis record `AnalyzeRequest` starts each request from. -/
def botnet.freshAnalysis (ip : String) (now : ℤ) : botnet.BotnetAnalysis :=
  { ip := ip
    timestamp := now
    isBotnet := false
    confidence := 0
    indicators := []
    riskScore := 0 }

/-- `n` consecutive `analyzeNetwork` calls for the same source IP, starting
from the freshly initialised detector (threshold 0.8, 60 s window, as the
service constructs it). -/
def netIter (ip : String) (now : ℤ) : ℕ → botnet.BotnetDetector
  | 0 => botnet.NewBotnetDetector 0.8 60000000000
  | n + 1 =>
    (botnet.analyzeNetwork (netIter ip now n) now ip (botnet.freshAnalysis ip now)).1

/-- After `n` single-IP calls the bucket's counter reads exactly `n`: the
code increments `IPCount` once per analysed request, not once per distinct
address. -/
lemma netIter_count (ip : String) (now : ℤ) (n : ℕ) :
    alookup (netIter ip now n).networkRanges (botnet.getNetworkFromIP ip)
      = if n = 0 then none
        else some { network := botnet.getNetworkFromIP ip
                    ipCount := (n : ℤ)
                    requestCount := 0
                    avgResponseTime := 0
                    firstSeen := now } := by
  induction n with
  | zero => simp [netIter, botnet.NewBotnetDetector, alookup]
  | succ m ih =>
    by_cases hm : m = 0
    · subst hm
      have ih0 : alookup (botnet.NewBotnetDetector (0.8 : ℚ)
          (60000000000 : ℤ)).networkRanges (botnet.getNetworkFromIP ip) = none := by
        simp [botnet.NewBotnetDetector, alookup]
      simp only [netIter, botnet.analyzeNetwork]
      rw [ih0]
      simp [alookup_astore_self]
    · have ih' : alookup (netIter ip now m).networkRanges
          (botnet.getNetworkFromIP ip)
          = some { network := botnet.getNetworkFromIP ip
                   ipCount := (m : ℤ)
                   requestCount := 0
                   avgResponseTime := 0
                   firstSeen := now } := by simpa [hm] using ih
      simp only [netIter, botnet.analyzeNetwork]
      rw [ih']
      simp [alookup_astore_self]

/-- Claim C8 (amended): after `n` prior analysed requests from a single IP,
the next `analyzeNetwork` call fires the +30 network indicator exactly when
the per-request counter — not a count of distinct addresses — exceeds 100,
i.e. exactly when this is at least the 101st request from the network. -/
theorem C8_network_indicator_amended (ip : String) (now : ℤ) (n : ℕ) :
    ((botnet.analyzeNetwork (netIter ip now n) now ip
        (botnet.freshAnalysis ip now)).2.riskScore
      = if 100 < n + 1 then 30 else 0) ∧
    ((botnet.analyzeNetwork (netIter ip now n) now ip
        (botnet.freshAnalysis ip now)).2.indicators
      = if 100 < n + 1 then ["High IP count from network"] else []) := by
  have hc := netIter_count ip now n
  by_cases hn : n = 0
  · subst hn
    have hc0 : alookup (netIter ip now 0).networkRanges
        (botnet.getNetworkFromIP ip) = none := by simpa using hc
    simp only [botnet.analyzeNetwork]
    rw [hc0]
    simp [botnet.freshAnalysis]
  · have hc' : alookup (netIter ip now n).networkRanges
        (botnet.getNetworkFromIP ip)
        = some { network := botnet.getNetworkFromIP ip
                 ipCount := (n : ℤ)
                 requestCount := 0
                 avgResponseTime := 0
                 firstSeen := now } := by simpa [hn] using hc
    simp only [botnet.analyzeNetwork]
    rw [hc']
    by_cases h100 : 100 < n + 1
    · have h100' : (100 : ℤ) < (n : ℤ) + 1 := by exact_mod_cast h100
      simp [botnet.addIndicator, botnet.freshAnalysis, h100, h100']
    · have h100' : ¬ ((100 : ℤ) < (n : ℤ) + 1) := by exact_mod_cast h100
      simp [botnet.freshAnalysis, h100, h100']

/-- Claim C8 (counterexample): the 101st analysed request from the single
address 203.0.113.7 — so its network bucket has seen exactly one distinct
IP — fires the +30 "High IP count from network" indicator, contradicting the
claim that repeated requests from one IP cannot trigger it. -/
theorem C8_counterexample :
    (botnet.analyzeNetwork (netIter "203.0.113.7" 0 100) 0 "203.0.113.7"
      (botnet.freshAnalysis "203.0.113.7" 0)).2.riskScore = 30 ∧
    (botnet.analyzeNetwork (netIter "203.0.113.7" 0 100) 0 "203.0.113.7"
      (botnet.freshAnalysis "203.0.113.7" 0)).2.indicators
      = ["High IP count from network"] := by
  have hc' : alookup (netIter "203.0.113.7" 0 100).networkRanges
      (botnet.getNetworkFromIP "203.0.113.7")
      = some { network := botnet.getNetworkFromIP "203.0.113.7"
               ipCount := 100
               requestCount := 0
               avgResponseTime := 0
               firstSeen := 0 } := by
    simpa using netIter_count "203.0.113.7" 0 100
  simp only [botnet.analyzeNetwork]
  rw [hc']
  simp [botnet.addIndicator, botnet.freshAnalysis]

/-- Claim C6 (amended): when the earlier terminal checks pass and the
high-frequency check fires, it adds +20 and the request is blocked there —
with reason "High frequency requests detected" — exactly when the risk
accumulated before the check exceeds 30 (more than three suspicious-header
marks at +10 each), i.e. exactly when the running score including the +20
exceeds 50; a prior risk of 31..50 already blocks, prior risk up to 30
continues to the remaining checks. -/
theorem C6_high_frequency_amended (rf : filter.RequestFilter) (now : ℤ)
    (req : Request)
    (hsize : ¬ (rf.maxRequestSize < req.contentLength))
    (hua : rf.isBlockedUserAgent req.userAgent = false)
    (hurl : rf.hasMaliciousPattern (req.path ++ req.rawQuery) = false)
    (hfreq : rf.isHighFrequency now req.remoteAddr = true) :
    (((rf.FilterRequest now req).1.Blocked = true ∧
      (rf.FilterRequest now req).1.Reason = "High frequency requests detected")
      ↔ 3 < (rf.checkSuspiciousHeaders req.headers).length) := by
  unfold filter.RequestFilter.FilterRequest
  simp only [hsize, hua, hurl, hfreq, decide_eq_true_eq, if_true, if_false,
    Bool.false_eq_true]
  split_ifs with h1 h2 h3 h4 h5 h6 h7 h8 h9 h10 h11 h12
  all_goals simp_all
  all_goals omega

/-- The C6 scenario filter: three configured suspicious headers, a
command-token pattern, and a history of 101 requests from the scenario
address inside the window. -/
def c6Filter : filter.RequestFilter :=
  { maxRequestSize := 1048576
    suspiciousHeaders := ["X-Payload-A", "X-Payload-B", "X-Payload-C"]
    blockedUserAgentRe := []
    maliciousPatterns := [fun s => goContains (goToLower s) "cmd"]
    requestHistory := fun ip =>
      if ip == "198.51.100.77:1000" then List.replicate 101 0 else [] }

/-- The C6 scenario request: three pattern-matching payload headers plus a
NUL byte in a fourth header (the header-manipulation mark), 40 points of
risk in total before the frequency check. -/
def c6Request : Request :=
  { method := "GET"
    path := "/demo/"
    rawQuery := ""
    contentLength := 0
    headers := [("User-Agent", ["Mozilla/5.0"]),
                ("X-Payload-A", ["run cmd now"]),
                ("X-Payload-B", ["cmd"]),
                ("X-Payload-C", ["CMD shell"]),
                ("X-Odd", ["a\x00b"])]
    remoteAddr := "198.51.100.77:1000" }

/-- Claim C6 (counterexample): with 40 points of risk accumulated before the
high-frequency check — four suspicious-header marks, which is 50 or less, so
the claim says filtering continues — the check fires, raises the score
to 60, and the request is blocked right there. -/
theorem C6_counterexample :
    (c6Filter.checkSuspiciousHeaders c6Request.headers).length = 4 ∧
    (c6Filter.FilterRequest 0 c6Request).1.Blocked = true ∧
    (c6Filter.FilterRequest 0 c6Request).1.Allowed = false ∧
    (c6Filter.FilterRequest 0 c6Request).1.RiskScore = 60 ∧
    (c6Filter.FilterRequest 0 c6Request).1.Reason
      = "High frequency requests detected" := by
  refine ⟨rfl, by decide, by decide, by decide, rfl⟩

/-- Witness for C6 (amended) at the scenario input. -/
theorem C6_high_frequency_amended_witness :
    (((c6Filter.FilterRequest 0 c6Request).1.Blocked = true ∧
      (c6Filter.FilterRequest 0 c6Request).1.Reason
        = "High frequency requests detected")
      ↔ 3 < (c6Filter.checkSuspiciousHeaders c6Request.headers).length) :=
  C6_high_frequency_amended c6Filter 0 c6Request (by decide) (by decide)
    (by decide) (by decide)

namespace ratelimit

/-- Retention predicate of the removal pass at cutoff `c`. -/
def keepPred (c : ℤ) (m : ℤ) : Bool :=
  decide (unixSec m < 0) || decide (c < unixSec m)

lemma unixSec_mono {a b : ℤ} (h : a ≤ b) : unixSec a ≤ unixSec b :=
  Int.ediv_le_ediv (by norm_num [nsPerSec]) h

lemma unixSec_add_one (x : ℤ) : unixSec (x + nsPerSec) = unixSec x + 1 := by
  unfold unixSec
  have h : (nsPerSec : ℤ) ≠ 0 := by norm_num [nsPerSec]
  calc (x + nsPerSec) / nsPerSec = (x + 1 * nsPerSec) / nsPerSec := by ring_nf
    _ = x / nsPerSec + 1 := Int.add_mul_ediv_right x 1 h

lemma redisRun_append (L : ℕ) (W : ℤ) (st : List ℤ) (ts : List ℤ) (t : ℤ) :
    redisRun L W st (ts ++ [t])
      = ((redisRun L W st ts).1
          ++ [(redisAllowStep true L W (redisRun L W st ts).2 t).1],
         (redisAllowStep true L W (redisRun L W st ts).2 t).2) := by
  induction ts generalizing st with
  | nil => simp [redisRun]
  | cons u ts ih => simp [redisRun, ih]

lemma redisRun_length (L : ℕ) (W : ℤ) (st : List ℤ) (ts : List ℤ) :
    (redisRun L W st ts).1.length = ts.length := by
  induction ts generalizing st with
  | nil => rfl
  | cons u ts ih => simp [redisRun, ih]

lemma redisRun_state_subset (L : ℕ) (W : ℤ) (ts : List ℤ) :
    ∀ m ∈ (redisRun L W [] ts).2, m ∈ ts := by
  induction ts using List.reverseRecOn with
  | nil => intro m hm; simp [redisRun] at hm
  | append_singleton ts t ih =>
    intro m hm
    rw [redisRun_append] at hm
    unfold redisAllowStep at hm
    simp only [if_true] at hm
    by_cases hcont : ((redisRun L W [] ts).2.filter
        (fun m => decide (unixSec m < 0) || decide (unixSec (t - W) < unixSec m))).contains t
    · rw [if_pos hcont] at hm
      have := List.mem_of_mem_filter hm
      exact List.mem_append_left _ (ih m this)
    · rw [if_neg hcont] at hm
      rcases List.mem_append.mp hm with h | h
      · exact List.mem_append_left _ (ih m (List.mem_of_mem_filter h))
      · simp only [List.mem_singleton] at h
        subst h
        exact List.mem_append_right _ (by simp)

lemma keepPred_absorb (c' c m : ℤ) (h : c' ≤ c) :
    (keepPred c m && keepPred c' m) = keepPred c m := by
  unfold keepPred
  by_cases h1 : unixSec m < 0
  · simp [h1]
  · by_cases h2 : c < unixSec m
    · have h3 : c' < unixSec m := lt_of_le_of_lt h h2
      simp [h1, h2, h3]
    · simp [h1, h2]

lemma redisRun_state_filter (L : ℕ) (W : ℤ) (ts : List ℤ) (c : ℤ)
    (hc : ∀ u ∈ ts, unixSec (u - W) ≤ c)
    (hstrict : ts.Pairwise (· < ·)) :
    (redisRun L W [] ts).2.filter (keepPred c) = ts.filter (keepPred c) := by
  induction ts using List.reverseRecOn with
  | nil => simp [redisRun]
  | append_singleton ts t ih =>
    obtain ⟨hstr1, -, hlt⟩ := List.pairwise_append.mp hstrict
    have hct : unixSec (t - W) ≤ c := hc t (by simp)
    have hcts : ∀ u ∈ ts, unixSec (u - W) ≤ c := fun u hu => hc u (by simp [hu])
    have hkk : (fun m => decide (unixSec m < 0) || decide (unixSec (t - W) < unixSec m))
        = keepPred (unixSec (t - W)) := rfl
    have hnot : t ∉ (redisRun L W [] ts).2.filter (keepPred (unixSec (t - W))) := by
      intro hmem
      have hts : t ∈ ts := redisRun_state_subset L W ts t (List.mem_of_mem_filter hmem)
      exact absurd (hlt t hts t (by simp)) (lt_irrefl t)
    rw [redisRun_append]
    unfold redisAllowStep
    simp only [if_true, hkk]
    rw [if_neg (by simpa [List.contains, List.elem_iff] using hnot)]
    rw [List.filter_append, List.filter_append, List.filter_filter]
    have habs : (redisRun L W [] ts).2.filter
        (fun a => keepPred c a && keepPred (unixSec (t - W)) a)
        = (redisRun L W [] ts).2.filter (keepPred c) :=
      List.filter_congr (fun m _ => keepPred_absorb (unixSec (t - W)) c m hct)
    rw [habs, ih hcts hstr1]


lemma trueCountIn_le (L : ℕ) (W : ℤ) (ts : List ℤ) (a b : ℤ)
    (hstrict : ts.Pairwise (· < ·)) (hab : b - a ≤ W - nsPerSec) :
    trueCountIn L W ts a b ≤ L := by
  induction ts using List.reverseRecOn with
  | nil => simp [trueCountIn, redisRun]
  | append_singleton ts t ih =>
    obtain ⟨hstr1, -, hlt⟩ := List.pairwise_append.mp hstrict
    have hlen : ts.length = (redisRun L W [] ts).1.length :=
      (redisRun_length L W [] ts).symm
    unfold trueCountIn
    rw [redisRun_append]
    rw [List.zip_append hlen, List.countP_append]
    have hts_count : trueCountIn L W ts a b
        = (ts.zip (redisRun L W [] ts).1).countP
            (fun p => decide (a ≤ p.1) && decide (p.1 ≤ b) && p.2) := rfl
    by_cases hcase : (decide (a ≤ t) && decide (t ≤ b)
        && (redisAllowStep true L W (redisRun L W [] ts).2 t).1) = true
    · -- the final call is an admitted in-interval call
      have ha : a ≤ t := by
        have := hcase
        simp only [Bool.and_eq_true, decide_eq_true_eq] at this
        exact this.1.1
      have hb : t ≤ b := by
        have := hcase
        simp only [Bool.and_eq_true, decide_eq_true_eq] at this
        exact this.1.2
      have hr : (redisAllowStep true L W (redisRun L W [] ts).2 t).1 = true := by
        have := hcase
        simp only [Bool.and_eq_true, decide_eq_true_eq] at this
        exact this.2
      -- characterise the admitted count at the final call
      have hcts : ∀ u ∈ ts, unixSec (u - W) ≤ unixSec (t - W) := by
        intro u hu
        have : u < t := hlt u hu t (by simp)
        exact unixSec_mono (by linarith)
      have hkk : (fun m => decide (unixSec m < 0)
          || decide (unixSec (t - W) < unixSec m)) = keepPred (unixSec (t - W)) := rfl
      have hkept : (redisRun L W [] ts).2.filter (keepPred (unixSec (t - W)))
          = ts.filter (keepPred (unixSec (t - W))) :=
        redisRun_state_filter L W ts (unixSec (t - W)) hcts hstr1
      have hcount : ts.countP (keepPred (unixSec (t - W))) < L := by
        unfold redisAllowStep at hr
        simp only [if_true, hkk, hkept, decide_eq_true_eq] at hr
        rwa [List.countP_eq_length_filter]
      -- every in-interval call of ts is still retained at the final call
      have himp : ∀ u ∈ ts, (decide (a ≤ u) && decide (u ≤ b)) = true →
          keepPred (unixSec (t - W)) u = true := by
        intro u _ hu
        simp only [Bool.and_eq_true, decide_eq_true_eq] at hu
        have hlow : t - W + nsPerSec ≤ u := by linarith [hu.1]
        have : unixSec (t - W + nsPerSec) ≤ unixSec u := unixSec_mono hlow
        rw [unixSec_add_one] at this
        unfold keepPred
        have : unixSec (t - W) < unixSec u := by linarith
        simp [this]
      have hproj : (ts.zip (redisRun L W [] ts).1).countP
            (fun p => decide (a ≤ p.1) && decide (p.1 ≤ b))
          = ts.countP (fun u => decide (a ≤ u) && decide (u ≤ b)) := by
        have hm : List.map Prod.fst (ts.zip (redisRun L W [] ts).1) = ts :=
          List.map_fst_zip ts (redisRun L W [] ts).1 (le_of_eq hlen)
        calc (ts.zip (redisRun L W [] ts).1).countP
              (fun p => decide (a ≤ p.1) && decide (p.1 ≤ b))
            = ((ts.zip (redisRun L W [] ts).1).map Prod.fst).countP
                (fun u => decide (a ≤ u) && decide (u ≤ b)) := by
              rw [List.countP_map]; rfl
          _ = ts.countP (fun u => decide (a ≤ u) && decide (u ≤ b)) := by rw [hm]
      have hchain : (ts.zip (redisRun L W [] ts).1).countP
            (fun p => decide (a ≤ p.1) && decide (p.1 ≤ b) && p.2) < L := by
        calc (ts.zip (redisRun L W [] ts).1).countP
              (fun p => decide (a ≤ p.1) && decide (p.1 ≤ b) && p.2)
            ≤ (ts.zip (redisRun L W [] ts).1).countP
              (fun p => decide (a ≤ p.1) && decide (p.1 ≤ b)) := by
              apply List.countP_mono_left
              intro p _ hp
              simp only [Bool.and_eq_true] at hp ⊢
              exact hp.1
          _ = ts.countP (fun u => decide (a ≤ u) && decide (u ≤ b)) := hproj
          _ ≤ ts.countP (keepPred (unixSec (t - W))) :=
              List.countP_mono_left himp
          _ < L := hcount
      simp only [List.countP_cons, List.countP_nil, List.zip_cons_cons,
        List.zip_nil_right]
      simp [hcase]
      omega
    · simp only [List.zip_cons_cons, List.zip_nil_right, List.countP_cons,
        List.countP_nil]
      simp [hcase]
      have := ih hstr1
      rw [hts_count] at this
      omega


lemma redisRun_results_spec (L : ℕ) (W : ℤ) (s ts : List ℤ)
    (hs : ∀ t ∈ ts, ∀ m ∈ s, keepPred (unixSec (t - W)) m = true)
    (hsnot : ∀ t ∈ ts, t ∉ s)
    (hpair : ts.Pairwise
      (fun u t => keepPred (unixSec (t - W)) u = true ∧ u ≠ t)) :
    (redisRun L W s ts).1
      = (List.range ts.length).map (fun i => decide (s.length + i < L)) := by
  induction ts generalizing s with
  | nil => simp [redisRun]
  | cons t ts ih =>
    obtain ⟨hrel, hpair2⟩ := List.pairwise_cons.mp hpair
    have hfix : s.filter (fun m => decide (unixSec m < 0)
        || decide (unixSec (t - W) < unixSec m)) = s :=
      List.filter_eq_self.mpr (fun m hm => hs t (by simp) m hm)
    have hnot : t ∉ s := hsnot t (by simp)
    have hcont : s.contains t = false := by
      rw [← Bool.not_eq_true]
      intro h
      exact hnot (List.elem_iff.mp h)
    have hstep : redisAllowStep true L W s t
        = (decide (s.length < L), s ++ [t]) := by
      unfold redisAllowStep
      simp only [if_true, hfix, hcont, Bool.false_eq_true, if_false]
    have hs2 : ∀ u ∈ ts, ∀ m ∈ s ++ [t], keepPred (unixSec (u - W)) m = true := by
      intro u hu m hm
      rcases List.mem_append.mp hm with h | h
      · exact hs u (by simp [hu]) m h
      · simp only [List.mem_singleton] at h
        subst h
        exact (hrel u hu).1
    have hsnot2 : ∀ u ∈ ts, u ∉ s ++ [t] := by
      intro u hu hmem
      rcases List.mem_append.mp hmem with h | h
      · exact hsnot u (by simp [hu]) h
      · simp only [List.mem_singleton] at h
        exact (hrel u hu).2 h.symm
    have ihx := ih (s ++ [t]) hs2 hsnot2 hpair2
    simp only [redisRun, hstep, ihx]
    rw [List.length_cons, List.range_succ_eq_map, List.map_cons, List.map_map]
    have hfun : (fun i => decide ((s ++ [t]).length + i < L))
        = ((fun i => decide (s.length + i < L)) ∘ Nat.succ) := by
      funext i
      simp only [List.length_append, List.length_singleton, Function.comp]
      rw [decide_eq_decide]
      omega
    rw [hfun]
    congr 1

end ratelimit

/-- Claim C4 (amended): for the sliding-window limiter over strictly
increasing call instants, (i) while every earlier call is still retained at
each later call, the i-th call is admitted exactly when i < L — so the L-th
call is admitted and the (L+1)-th refused; and (ii) in every interval of
length W minus one second, at most L calls are admitted.  The one-second
slack is forced by the whole-second truncation of the stored scores
(`Time.Unix()`), which can drop a call up to a second younger than the
window edge; the original W-length bound fails (see the counterexample). -/
theorem C4_sliding_window_amended (L : ℕ) (W : ℤ) (ts : List ℤ)
    (hstrict : ts.Pairwise (· < ·)) :
    (ts.Pairwise (ratelimit.pairInWindow W) →
      (ratelimit.redisRun L W [] ts).1
        = (List.range ts.length).map (fun i => decide (i < L))) ∧
    (∀ a b : ℤ, b - a ≤ W - nsPerSec → ratelimit.trueCountIn L W ts a b ≤ L) := by
  constructor
  · intro hwin
    have hne : ts.Pairwise (fun u t => u ≠ t) :=
      hstrict.imp (fun h => ne_of_lt h)
    have hpair : ts.Pairwise (fun u t =>
        ratelimit.keepPred (unixSec (t - W)) u = true ∧ u ≠ t) :=
      (hwin.and hne).imp (fun h => ⟨h.1, h.2⟩)
    have hres := ratelimit.redisRun_results_spec L W [] ts
      (by simp) (by simp) hpair
    simpa using hres
  · intro a b hab
    exact ratelimit.trueCountIn_le L W ts a b hstrict hab

/-- Witness for C4 (amended): three calls in the same second with limit 2 —
the first two admitted, the third refused — and the interval bound at
W − 1 s. -/
theorem C4_sliding_window_amended_witness :
    (ratelimit.redisRun 2 2000000000 [] [0, 1, 2]).1 = [true, true, false] ∧
    ratelimit.trueCountIn 2 2000000000 [0, 1, 2] 0 1000000000 ≤ 2 := by
  have h := C4_sliding_window_amended 2 2000000000 [0, 1, 2] (by decide)
  refine ⟨?_, h.2 0 1000000000 (by decide)⟩
  rw [h.1 (by decide)]
  decide

/-- Claim C4 (counterexample): with limit 1 and window 1 s, the calls at
100.5 s and 101.4 s are both admitted — the second-granularity removal drops
the first call's score although it is only 0.9 s old — so the interval
[100.4 s, 101.4 s], of length exactly W, holds 2 > L admitted calls. -/
theorem C4_counterexample :
    (ratelimit.redisRun 1 nsPerSec [] [100500000000, 101400000000]).1
      = [true, true] ∧
    (101400000000 : ℤ) - 100400000000 = nsPerSec ∧
    ratelimit.trueCountIn 1 nsPerSec [100500000000, 101400000000]
      100400000000 101400000000 = 2 := by
  refine ⟨by decide, by decide, by decide⟩
